import Mathlib

/-!
Shallow embedding of `src/server.js`, an Express CRUD API over an in-memory
product list, together with proofs about the claims of the specification.

Modelling conventions:
* JavaScript field values are modelled by `JsVal` (strings, numbers as
  integers, booleans, `undefined`, `null`); request bodies carry an
  `Option JsVal` per key (`none` = key absent, `some .undef` = key present
  with value `undefined`), so JS object spread and destructuring are exact.
* Express dispatch is modelled faithfully: the registered routes are kept in
  source order in `routes`, and `dispatch` runs the handler chain of the
  FIRST route whose method and path pattern match, exactly as Express does
  when a handler responds without calling `next()` for another route.
* `uuidv4()` is nondeterministic; the generated id is passed to `dispatch`
  as an explicit argument `nid`.
* Numeric query parameters `page` and `limit` are modelled as parsed
  natural numbers (`parseInt` of a well-formed decimal string); degenerate
  inputs (non-numeric strings, NaN) are outside the model.
-/

namespace ProductApi

/-- JavaScript values occurring as product fields and body fields. -/
inductive JsVal where
  | str (s : String)
  | num (n : Int)
  | bool (b : Bool)
  | undef
  | null
deriving DecidableEq, Repr

/-- JavaScript truthiness of a `JsVal` (`!v` in the source is `!truthy v`). -/
def truthy : JsVal → Bool
  | .str s => s ≠ ""
  | .num n => n ≠ 0
  | .bool b => b
  | .undef => false
  | .null => false

/-- Models `typeof v === 'number'`. -/
def isNumber : JsVal → Bool
  | .num _ => true
  | _ => false

/-- Models `typeof v === 'boolean'`. -/
def isBool : JsVal → Bool
  | .bool _ => true
  | _ => false

/-- JavaScript string coercion, used when a value is an object key
(`stats[p.category]`). -/
def jsKeyString : JsVal → String
  | .str s => s
  | .num n => toString n
  | .bool b => if b then "true" else "false"
  | .undef => "undefined"
  | .null => "null"

/-- A stored product record. After updates the fields can hold arbitrary
JavaScript values (the source puts no type guard on the merge), so every
field including `id` is a `JsVal`. -/
structure Product where
  id : JsVal
  name : JsVal
  description : JsVal
  price : JsVal
  category : JsVal
  inStock : JsVal
deriving DecidableEq, Repr

/-- A request body: each of the six recognised keys is either absent
(`none`) or present with a value. -/
structure Body where
  id : Option JsVal
  name : Option JsVal
  description : Option JsVal
  price : Option JsVal
  category : Option JsVal
  inStock : Option JsVal
deriving DecidableEq, Repr

/-- The empty body (a request with no JSON fields). -/
def emptyBody : Body :=
  { id := none, name := none, description := none, price := none,
    category := none, inStock := none }

/-- Models `{ ...p, ...body }`: every key present in the body overwrites,
every absent key keeps the stored value. -/
def mergeProd (p : Product) (b : Body) : Product :=
  { id := b.id.getD p.id
    name := b.name.getD p.name
    description := b.description.getD p.description
    price := b.price.getD p.price
    category := b.category.getD p.category
    inStock := b.inStock.getD p.inStock }

/-- The mutable collection `let products = [...]`. -/
abbrev State := List Product

/-- First seeded sample product (lines 17-24 of `server.js`). -/
def prod1 : Product :=
  { id := .str "1", name := .str "Laptop",
    description := .str "High-performance laptop with 16GB RAM",
    price := .num 1200, category := .str "electronics", inStock := .bool true }

/-- Second seeded sample product (lines 25-32). -/
def prod2 : Product :=
  { id := .str "2", name := .str "Smartphone",
    description := .str "Latest model with 128GB storage",
    price := .num 800, category := .str "electronics", inStock := .bool true }

/-- Third seeded sample product (lines 33-40). -/
def prod3 : Product :=
  { id := .str "3", name := .str "Coffee Maker",
    description := .str "Programmable coffee maker with timer",
    price := .num 50, category := .str "kitchen", inStock := .bool false }

/-- The three seeded sample products (lines 16-41 of `server.js`). -/
def products : State := [prod1, prod2, prod3]

/-- Invariant of the data model: every product id in the collection is
distinct. -/
def uniqueIds (s : State) : Prop := (s.map (·.id)).Nodup

instance (s : State) : Decidable (uniqueIds s) := by
  unfold uniqueIds; infer_instance

/-- HTTP methods used by the app. -/
inductive Method where
  | GET
  | POST
  | PUT
  | DELETE
deriving DecidableEq, Repr

/-- An incoming HTTP request: method, path split into segments, the
`x-api-key` header, the query parameters read by the handlers, and the
parsed JSON body. -/
structure Request where
  method : Method
  path : List String
  apiKey : Option String
  category : Option String
  search : Option String
  page : Option Nat
  limit : Option Nat
  body : Body
deriving DecidableEq, Repr

/-- Response bodies produced by the app, by shape. `frameworkNotFound` is
the Express default 404 for unmatched routes. -/
inductive ResBody where
  | text (s : String)
  | errObj (e : String)
  | productJson (p : Product)
  | productArray (l : List Product)
  | pageObj (total : Nat) (page : Nat) (lim : Nat) (items : List Product)
  | statsObj (l : List (String × Nat))
  | empty
  | frameworkNotFound
deriving DecidableEq, Repr

/-- An HTTP response: status code and JSON/text body. -/
structure Response where
  status : Nat
  body : ResBody
deriving DecidableEq, Repr

/-- A handler chain: takes the current collection, the request, the captured
`:id` path parameter (empty string for routes without one) and the fresh
uuid for this request, and returns the response and the new collection. -/
abbrev Handler := State → Request → String → String → Response × State

/-- Root route (line 44): a text banner. -/
def rootH : Handler := fun s _ _ _ =>
  (⟨200, .text "Welcome to the Product API! Go to /api/products to see all products."⟩, s)

/-- First registration of `GET /api/products` (line 50): returns the raw
array. -/
def listV1 : Handler := fun s _ _ _ => (⟨200, .productArray s⟩, s)

/-- Handler of `GET /api/products/:id` (line 55): linear scan by strict
equality `p.id === req.params.id`. -/
def getByIdH : Handler := fun s _ pid _ =>
  match s.find? (fun p => p.id == JsVal.str pid) with
  | none => (⟨404, .errObj "Product not found"⟩, s)
  | some p => (⟨200, .productJson p⟩, s)

/-- The record built by the create handler (line 64): the body is
destructured (absent keys become `undefined`) and a fresh uuid is
assigned. -/
def createdProd (b : Body) (newId : String) : Product :=
  { id := JsVal.str newId
    name := b.name.getD .undef
    description := b.description.getD .undef
    price := b.price.getD .undef
    category := b.category.getD .undef
    inStock := b.inStock.getD .undef }

/-- Create handler body (lines 62-67 and 153-158): builds the record with a
fresh uuid and appends it to the collection. -/
def createH : Handler := fun s req _ newId =>
  let product : Product := createdProd req.body newId
  (⟨201, .productJson product⟩, s ++ [product])

/-- Models `Array.prototype.findIndex`: index of the first element
satisfying the predicate, `none` for the source's `-1`. -/
def findIndexJs (f : Product → Bool) : List Product → Option Nat
  | [] => none
  | p :: rest => if f p then some 0 else (findIndexJs f rest).map (· + 1)

/-- Update handler body (lines 70-75 and 160-165): `findIndex`, then
in-place shallow merge of the body onto the stored record. The inner
`none` branch of the element lookup is unreachable because `findIndexJs`
only returns indices in range. -/
def updateH : Handler := fun s req pid _ =>
  match findIndexJs (fun p => p.id == JsVal.str pid) s with
  | none => (⟨404, .errObj "Product not found"⟩, s)
  | some i =>
    match s.get? i with
    | none => (⟨404, .errObj "Product not found"⟩, s)
    | some old =>
      let merged := mergeProd old req.body
      (⟨200, .productJson merged⟩, s.set i merged)

/-- Delete handler (lines 78-83): `findIndex` then `splice(index, 1)`. -/
def deleteH : Handler := fun s _ pid _ =>
  match findIndexJs (fun p => p.id == JsVal.str pid) s with
  | none => (⟨404, .errObj "Product not found"⟩, s)
  | some i => (⟨204, .empty⟩, s.eraseIdx i)

/-- Authentication middleware (lines 92-98): rejects with 401 unless the
`x-api-key` header strictly equals the secret. -/
def authenticate (h : Handler) : Handler := fun s req pid nid =>
  if req.apiKey ≠ some "my-secret-key" then
    (⟨401, .errObj "Unauthorized: Invalid API key"⟩, s)
  else h s req pid nid

/-- The failure condition of the validation middleware (line 103):
`!name || !description || typeof price !== 'number' || !category ||
typeof inStock !== 'boolean'`. -/
def invalidProductBody (b : Body) : Bool :=
  !truthy (b.name.getD .undef) || !truthy (b.description.getD .undef) ||
  !isNumber (b.price.getD .undef) || !truthy (b.category.getD .undef) ||
  !isBool (b.inStock.getD .undef)

/-- Validation middleware (lines 101-107). -/
def validateProduct (h : Handler) : Handler := fun s req pid nid =>
  if invalidProductBody req.body then
    (⟨400, .errObj "ValidationError: Invalid product data"⟩, s)
  else h s req pid nid

/-- Case-folded prefix test on character lists. -/
def startsWithChars : List Char → List Char → Bool
  | [], _ => true
  | _ :: _, [] => false
  | a :: as, b :: bs => a == b && startsWithChars as bs

/-- Substring test on character lists, used to model
`String.prototype.includes`. -/
def containsChars (pat : List Char) : List Char → Bool
  | [] => pat.isEmpty
  | c :: rest => startsWithChars pat (c :: rest) || containsChars pat rest

/-- Models `p.name.toLowerCase().includes(q.toLowerCase())` for a string
name; a non-string name would raise a `TypeError` in the source, which this
shadowed handler can never do because no request reaches it. -/
def nameIncludes (v : JsVal) (q : String) : Bool :=
  match v with
  | .str s => containsChars q.toLower.data s.toLower.data
  | _ => false

/-- Second registration of `GET /api/products` (lines 127-141): category
filter, case-insensitive name search, then pagination. -/
def listV2 : Handler := fun s req _ _ =>
  let result := s
  let result := if req.category.getD "" ≠ "" then
      result.filter (fun p => p.category == JsVal.str (req.category.getD ""))
    else result
  let result := if req.search.getD "" ≠ "" then
      result.filter (fun p => nameIncludes p.name (req.search.getD ""))
    else result
  let pageN := req.page.getD 1
  let limitN := req.limit.getD 10
  let start := (pageN - 1) * limitN
  let paginated := (result.drop start).take limitN
  (⟨200, .pageObj result.length pageN limitN paginated⟩, s)

/-- One step of `stats[p.category] = (stats[p.category] || 0) + 1` on an
association list of object keys. -/
def bump : List (String × Nat) → String → List (String × Nat)
  | [], k => [(k, 1)]
  | (k', n) :: rest, k =>
    if k' = k then (k', n + 1) :: rest else (k', n) :: bump rest k

/-- The stats object built by the `forEach` loop (lines 145-148). -/
def statsFor (s : State) : List (String × Nat) :=
  s.foldl (fun acc p => bump acc (jsKeyString p.category)) []

/-- Stats handler (lines 144-150). -/
def statsH : Handler := fun s _ _ _ => (⟨200, .statsObj (statsFor s)⟩, s)

/-- A segment of a route pattern: a literal or a `:param` capture. -/
inductive Seg where
  | lit (s : String)
  | param
deriving DecidableEq, Repr

/-- Express path matching: a pattern matches a concrete segment list and
yields the captured parameters in order. -/
def matchPat : List Seg → List String → Option (List String)
  | [], [] => some []
  | .lit s :: ps, x :: xs => if x = s then matchPat ps xs else none
  | .param :: ps, x :: xs => (matchPat ps xs).map (x :: ·)
  | _, _ => none

/-- The routes of `server.js` in registration order, each with its full
middleware chain. Registrations 7-10 are the second copies of the
list/stats/create/update routes (lines 127, 144, 153, 160). -/
def routes : List (Method × List Seg × Handler) :=
  [ (.GET, [], rootH),
    (.GET, [.lit "api", .lit "products"], listV1),
    (.GET, [.lit "api", .lit "products", .param], getByIdH),
    (.POST, [.lit "api", .lit "products"], createH),
    (.PUT, [.lit "api", .lit "products", .param], updateH),
    (.DELETE, [.lit "api", .lit "products", .param], deleteH),
    (.GET, [.lit "api", .lit "products"], listV2),
    (.GET, [.lit "api", .lit "products", .lit "stats"], statsH),
    (.POST, [.lit "api", .lit "products"], authenticate (validateProduct createH)),
    (.PUT, [.lit "api", .lit "products", .param], authenticate (validateProduct updateH)) ]

/-- Run the first route whose method and pattern match, as Express does when
every matching handler responds without calling `next()` towards a later
route; unmatched requests get the framework 404. -/
def runRoutes : List (Method × List Seg × Handler) → State → Request → String → Response × State
  | [], s, _, _ => (⟨404, .frameworkNotFound⟩, s)
  | (m, pat, h) :: rest, s, req, nid =>
    if m = req.method then
      match matchPat pat req.path with
      | some params => h s req (params.head?.getD "") nid
      | none => runRoutes rest s req nid
    else runRoutes rest s req nid

/-- The whole app: dispatch a request against the registered routes. -/
def dispatch (s : State) (req : Request) (nid : String) : Response × State :=
  runRoutes routes s req nid

/-! Concrete requests and records used to instantiate the theorems. -/

/-- A body that passes validation. -/
def validBodyEx : Body :=
  { id := none, name := some (.str "Desk"), description := some (.str "Wooden desk"),
    price := some (.num 120), category := some (.str "furniture"),
    inStock := some (.bool true) }

/-- The same body with `description` missing. -/
def noDescBody : Body := { validBodyEx with description := none }

/-- A body that only sets `price`. -/
def priceOnlyBody : Body := { emptyBody with price := some (.num 999) }

/-- A request skeleton: `GET /` with no header, no query, no body. -/
def baseReq : Request :=
  { method := .GET, path := [], apiKey := none, category := none, search := none,
    page := none, limit := none, body := emptyBody }

/-- `POST /api/products` with a valid body and NO `x-api-key` header. -/
def postNoKeyReq : Request :=
  { baseReq with method := .POST, path := ["api", "products"], body := validBodyEx }

/-- `POST /api/products` with the correct key and a valid body. -/
def postKeyValidReq : Request :=
  { postNoKeyReq with apiKey := some "my-secret-key" }

/-- `POST /api/products` with the correct key but `description` missing. -/
def postKeyNoDescReq : Request :=
  { postNoKeyReq with apiKey := some "my-secret-key", body := noDescBody }

/-- `GET /api/products?page=1&limit=2`. -/
def pagedListReq : Request :=
  { baseReq with path := ["api", "products"], page := some 1, limit := some 2 }

/-- `GET /api/products/stats`. -/
def statsReq : Request := { baseReq with path := ["api", "products", "stats"] }

/-- `GET /api/products/:id`. -/
def getByIdReq (pid : String) : Request :=
  { baseReq with path := ["api", "products", pid] }

/-- `DELETE /api/products/:id`. -/
def deleteReq (pid : String) : Request :=
  { baseReq with method := .DELETE, path := ["api", "products", pid] }

/-- `PUT /api/products/:id` updating only `price`, no `x-api-key` header. -/
def putPriceReq (pid : String) : Request :=
  { baseReq with
    method := .PUT
    path := ["api", "products", pid]
    body := priceOnlyBody }

/-- `PUT /api/products/1` whose body supplies a colliding `id` field. -/
def putIdOverwriteReq : Request :=
  { baseReq with
    method := .PUT
    path := ["api", "products", "1"]
    body := { emptyBody with id := some (.str "2") } }

/-- The record created from `validBodyEx` with a given fresh id. -/
def deskProd (nid : String) : Product :=
  { id := .str nid, name := .str "Desk", description := .str "Wooden desk",
    price := .num 120, category := .str "furniture", inStock := .bool true }

/-- The record created from `noDescBody`: `description` is `undefined`. -/
def noDescProd (nid : String) : Product :=
  { deskProd nid with description := .undef }

/-! Routing lemmas: which registered handler actually serves each request
shape. They make the Express first-match discipline explicit: the earlier,
middleware-free registrations shadow the later ones. -/

/-- `GET /api/products` is served by the first, plain-array registration. -/
theorem dispatch_get_collection (s : State) (req : Request) (nid : String)
    (hm : req.method = .GET) (hp : req.path = ["api", "products"]) :
    dispatch s req nid = listV1 s req "" nid := by
  simp [dispatch, runRoutes, routes, matchPat, hm, hp]

/-- `GET /api/products/:id` is served by the get-by-id handler; in
particular the path segment `stats` is captured as an id. -/
theorem dispatch_get_item (s : State) (req : Request) (nid pid : String)
    (hm : req.method = .GET) (hp : req.path = ["api", "products", pid]) :
    dispatch s req nid = getByIdH s req pid nid := by
  simp [dispatch, runRoutes, routes, matchPat, hm, hp]

/-- `POST /api/products` is served by the first registration, which has no
authentication or validation middleware. -/
theorem dispatch_post (s : State) (req : Request) (nid : String)
    (hm : req.method = .POST) (hp : req.path = ["api", "products"]) :
    dispatch s req nid = createH s req "" nid := by
  simp [dispatch, runRoutes, routes, matchPat, hm, hp]

/-- `PUT /api/products/:id` is served by the first registration, which has
no authentication or validation middleware. -/
theorem dispatch_put (s : State) (req : Request) (nid pid : String)
    (hm : req.method = .PUT) (hp : req.path = ["api", "products", pid]) :
    dispatch s req nid = updateH s req pid nid := by
  simp [dispatch, runRoutes, routes, matchPat, hm, hp]

/-- `DELETE /api/products/:id` is served by the delete handler. -/
theorem dispatch_delete (s : State) (req : Request) (nid pid : String)
    (hm : req.method = .DELETE) (hp : req.path = ["api", "products", pid]) :
    dispatch s req nid = deleteH s req pid nid := by
  simp [dispatch, runRoutes, routes, matchPat, hm, hp]

/-! Frame lemmas: none of the read handlers touches the collection. -/

theorem rootH_state (s : State) (req : Request) (pid nid : String) :
    (rootH s req pid nid).2 = s := rfl

theorem listV1_state (s : State) (req : Request) (pid nid : String) :
    (listV1 s req pid nid).2 = s := rfl

theorem getByIdH_state (s : State) (req : Request) (pid nid : String) :
    (getByIdH s req pid nid).2 = s := by
  simp only [getByIdH]
  split <;> rfl

theorem listV2_state (s : State) (req : Request) (pid nid : String) :
    (listV2 s req pid nid).2 = s := rfl

theorem statsH_state (s : State) (req : Request) (pid nid : String) :
    (statsH s req pid nid).2 = s := rfl

/-- If every registered handler whose method matches the request leaves the
collection unchanged, so does the whole match loop. -/
theorem runRoutes_state (rs : List (Method × List Seg × Handler)) (s : State)
    (req : Request) (nid : String)
    (h : ∀ e ∈ rs, e.1 = req.method → ∀ pid, (e.2.2 s req pid nid).2 = s) :
    (runRoutes rs s req nid).2 = s := by
  induction rs with
  | nil => rfl
  | cons e rest ih =>
    obtain ⟨m, pat, hd⟩ := e
    simp only [runRoutes]
    by_cases hm : m = req.method
    · rw [if_pos hm]
      cases hmp : matchPat pat req.path with
      | some params => exact h _ (List.mem_cons_self _ _) hm _
      | none => exact ih fun e he => h e (List.mem_cons_of_mem _ he)
    · rw [if_neg hm]
      exact ih fun e he => h e (List.mem_cons_of_mem _ he)

/-! Equation lemmas for the branching handlers. -/

theorem getByIdH_none (s : State) (req : Request) (pid nid : String)
    (h : s.find? (fun p => p.id == JsVal.str pid) = none) :
    getByIdH s req pid nid = (⟨404, .errObj "Product not found"⟩, s) := by
  simp [getByIdH, h]

theorem getByIdH_some (s : State) (req : Request) (pid nid : String) (p : Product)
    (h : s.find? (fun p => p.id == JsVal.str pid) = some p) :
    getByIdH s req pid nid = (⟨200, .productJson p⟩, s) := by
  simp [getByIdH, h]

theorem updateH_none (s : State) (req : Request) (pid nid : String)
    (hf : findIndexJs (fun p => p.id == JsVal.str pid) s = none) :
    updateH s req pid nid = (⟨404, .errObj "Product not found"⟩, s) := by
  simp [updateH, hf]

theorem updateH_some (s : State) (req : Request) (pid nid : String)
    (i : Nat) (old : Product)
    (hf : findIndexJs (fun p => p.id == JsVal.str pid) s = some i)
    (hg : s.get? i = some old) :
    updateH s req pid nid
      = (⟨200, .productJson (mergeProd old req.body)⟩, s.set i (mergeProd old req.body)) := by
  have hg' : s[i]? = some old := by rw [← List.get?_eq_getElem?]; exact hg
  simp [updateH, hf, hg']

theorem updateH_oob (s : State) (req : Request) (pid nid : String) (i : Nat)
    (hf : findIndexJs (fun p => p.id == JsVal.str pid) s = some i)
    (hg : s.get? i = none) :
    updateH s req pid nid = (⟨404, .errObj "Product not found"⟩, s) := by
  have hg' : s[i]? = none := by rw [← List.get?_eq_getElem?]; exact hg
  simp [updateH, hf, hg']

theorem deleteH_none (s : State) (req : Request) (pid nid : String)
    (hf : findIndexJs (fun p => p.id == JsVal.str pid) s = none) :
    deleteH s req pid nid = (⟨404, .errObj "Product not found"⟩, s) := by
  simp [deleteH, hf]

theorem deleteH_some (s : State) (req : Request) (pid nid : String) (i : Nat)
    (hf : findIndexJs (fun p => p.id == JsVal.str pid) s = some i) :
    deleteH s req pid nid = (⟨204, .empty⟩, s.eraseIdx i) := by
  simp [deleteH, hf]

/-! List helpers for reasoning about find, findIndex, set, splice. -/

theorem findIndexJs_eq_none (f : Product → Bool) (l : List Product)
    (h : ∀ q ∈ l, f q = false) : findIndexJs f l = none := by
  induction l with
  | nil => rfl
  | cons a as ih =>
    have ha : f a = false := h a (List.mem_cons_self _ _)
    simp [findIndexJs, ha, ih fun q hq => h q (List.mem_cons_of_mem _ hq)]

theorem findIndexJs_append_cons (f : Product → Bool) (pre : List Product)
    (x : Product) (post : List Product)
    (hpre : ∀ q ∈ pre, f q = false) (hx : f x = true) :
    findIndexJs f (pre ++ x :: post) = some pre.length := by
  induction pre with
  | nil => simp [findIndexJs, hx]
  | cons a as ih =>
    have ha : f a = false := hpre a (List.mem_cons_self _ _)
    simp [findIndexJs, ha, ih fun q hq => hpre q (List.mem_cons_of_mem _ hq)]

theorem find?_eq_none_of_all (f : Product → Bool) (l : List Product)
    (h : ∀ q ∈ l, f q = false) : l.find? f = none := by
  rw [List.find?_eq_none]
  intro x hx
  simp [h x hx]

theorem find?_append_cons (f : Product → Bool) (pre : List Product)
    (x : Product) (post : List Product)
    (hpre : ∀ q ∈ pre, f q = false) (hx : f x = true) :
    (pre ++ x :: post).find? f = some x := by
  induction pre with
  | nil => simp [List.find?_cons, hx]
  | cons a as ih =>
    have ha : f a = false := hpre a (List.mem_cons_self _ _)
    simp [List.find?_cons, ha, ih fun q hq => hpre q (List.mem_cons_of_mem _ hq)]

theorem get?_append_cons (pre : List Product) (x : Product) (post : List Product) :
    (pre ++ x :: post).get? pre.length = some x := by
  induction pre with
  | nil => rfl
  | cons a as ih => simpa using ih

theorem set_append_cons (pre : List Product) (x m : Product) (post : List Product) :
    (pre ++ x :: post).set pre.length m = pre ++ m :: post := by
  induction pre with
  | nil => rfl
  | cons a as ih => simp [List.set, ih]

theorem eraseIdx_append_cons (pre : List Product) (x : Product) (post : List Product) :
    (pre ++ x :: post).eraseIdx pre.length = pre ++ post := by
  induction pre with
  | nil => rfl
  | cons a as ih => simp [List.eraseIdx, ih]

theorem set_map_self (f : Product → JsVal) (s : List Product) (i : Nat)
    (old : Product) (h : s.get? i = some old) :
    (s.map f).set i (f old) = s.map f := by
  induction s generalizing i with
  | nil => simp at h
  | cons a as ih =>
    cases i with
    | zero =>
      simp only [List.get?] at h
      cases h
      simp [List.set]
    | succ n =>
      simp only [List.get?] at h
      simp [List.set, ih n h]

/-- Splitting the uniqueness invariant around one element. -/
theorem uniqueIds_split (pre : List Product) (old : Product) (post : List Product)
    (h : uniqueIds (pre ++ old :: post)) :
    (∀ q ∈ pre, q.id ≠ old.id) ∧ (∀ q ∈ post, q.id ≠ old.id) := by
  unfold uniqueIds at h
  rw [List.map_append, List.nodup_append] at h
  obtain ⟨-, hcons, hdisj⟩ := h
  constructor
  · intro q hq heq
    exact hdisj (List.mem_map_of_mem _ hq) (by simp [heq])
  · intro q hq heq
    rw [List.map_cons, List.nodup_cons] at hcons
    exact hcons.1 (heq ▸ List.mem_map_of_mem _ hq)

/-- One `bump` step grows the total count by one. -/
theorem bump_sum (l : List (String × Nat)) (k : String) :
    ((bump l k).map (·.2)).sum = ((l.map (·.2)).sum) + 1 := by
  induction l with
  | nil => simp [bump]
  | cons a rest ih =>
    obtain ⟨k', n⟩ := a
    by_cases h : k' = k
    · simp [bump, h]
      ring
    · simp [bump, h, ih]
      ring

/-- The stats mapping counts every product exactly once: the per-category
counts sum to the size of the collection. -/
theorem statsFor_counts_sum (s : State) : ((statsFor s).map (·.2)).sum = s.length := by
  suffices h : ∀ acc : List (String × Nat),
      ((s.foldl (fun acc p => bump acc (jsKeyString p.category)) acc).map (·.2)).sum
        = ((acc.map (·.2)).sum) + s.length by
    simpa using h []
  induction s with
  | nil => intro acc; simp
  | cons p rest ih =>
    intro acc
    simp only [List.foldl_cons, List.length_cons, ih, bump_sum]
    ring

/-! Claim theorems. -/

/-- C1. The spec claims a POST or PUT without the correct `x-api-key` is
rejected with 401 and leaves the collection unchanged. The code violates
this: the first registrations of POST `/api/products` and PUT
`/api/products/:id` carry no middleware and shadow the authenticated ones,
so a keyless POST with a valid body answers 201 and appends the product,
and a keyless PUT answers 200 and mutates the record. The authenticated
chain registered later would indeed have answered 401 unchanged. -/
theorem C1_unauthenticated_post_mutates :
    dispatch products postNoKeyReq "new-1"
        = (⟨201, .productJson (deskProd "new-1")⟩, products ++ [deskProd "new-1"])
    ∧ products ++ [deskProd "new-1"] ≠ products
    ∧ (dispatch products (putPriceReq "1") "x").1.status = 200
    ∧ (dispatch products (putPriceReq "1") "x").2 ≠ products
    ∧ authenticate (validateProduct createH) products postNoKeyReq "" "new-1"
        = (⟨401, .errObj "Unauthorized: Invalid API key"⟩, products)
    ∧ authenticate (validateProduct updateH) products (putPriceReq "1") "1" "x"
        = (⟨401, .errObj "Unauthorized: Invalid API key"⟩, products) :=
  ⟨rfl, by decide, rfl, by decide, rfl, rfl⟩

/-- C2. The spec claims a POST or PUT with the correct key but an invalid
body (here: `description` missing) is rejected with 400 and leaves the
collection unchanged. The code violates this: the request is served by the
middleware-free first POST registration, which answers 201 and appends a
record whose `description` is `undefined`. The validated chain registered
later would indeed have answered 400 unchanged. -/
theorem C2_missing_description_not_rejected :
    dispatch products postKeyNoDescReq "new-2"
        = (⟨201, .productJson (noDescProd "new-2")⟩, products ++ [noDescProd "new-2"])
    ∧ products ++ [noDescProd "new-2"] ≠ products
    ∧ authenticate (validateProduct createH) products postKeyNoDescReq "" "new-2"
        = (⟨400, .errObj "ValidationError: Invalid product data"⟩, products) :=
  ⟨rfl, by decide, rfl⟩

/-- C3. The spec claims `GET /api/products` answers the pagination object
`(total, page, limit, products)`; with `page=1&limit=2` on the 3-item
seeded collection it should answer 2 products and `total = 3`. The code
violates this: the request is served by the first registration, which
returns the raw 3-element array and ignores every query parameter. The
shadowed second registration would indeed have produced the claimed
pagination object. -/
theorem C3_pagination_shadowed :
    dispatch products pagedListReq "x" = (⟨200, .productArray products⟩, products)
    ∧ products.length = 3
    ∧ (listV2 products pagedListReq "" "x").1 = ⟨200, .pageObj 3 1 2 [prod1, prod2]⟩ :=
  ⟨rfl, rfl, rfl⟩

/-- C4. The spec claims `GET /api/products/stats` answers 200 with the
category-to-count mapping. The code violates this: the route
`/api/products/:id` is registered earlier and captures the segment
`stats` as an id, so the request answers 404. The shadowed stats handler
would indeed have produced the mapping, whose counts sum to the collection
size (`statsFor_counts_sum`). -/
theorem C4_stats_route_shadowed :
    dispatch products statsReq "x" = (⟨404, .errObj "Product not found"⟩, products)
    ∧ statsH products statsReq "" "x"
        = (⟨200, .statsObj [("electronics", 2), ("kitchen", 1)]⟩, products)
    ∧ 2 + 1 = products.length :=
  ⟨rfl, rfl, rfl⟩

/-- C5 counterexample. The claim that the two handler chains registered for
each duplicated route are behaviorally equivalent is false at a concrete
input: on a keyless POST with a valid body, the first chain creates the
product and answers 201 while the second chain answers 401 and leaves the
collection alone. -/
theorem C5_chains_not_equivalent :
    createH products postNoKeyReq "" "n1"
      ≠ authenticate (validateProduct createH) products postNoKeyReq "" "n1" := by
  decide

/-- C5 amended. The duplicate registrations are NOT behaviorally
equivalent, so collapsing each pair into one registration with the full
middleware chain is not behavior-preserving: the POST and PUT pairs agree
exactly on requests that carry the correct `x-api-key` and a body passing
validation, and the two `GET /api/products` handlers never produce the
same response body (raw array versus pagination object). -/
theorem C5_dedup_changes_behavior :
    (∀ (s : State) (req : Request) (pid nid : String),
        req.apiKey = some "my-secret-key" → invalidProductBody req.body = false →
        authenticate (validateProduct createH) s req pid nid = createH s req pid nid
        ∧ authenticate (validateProduct updateH) s req pid nid = updateH s req pid nid)
    ∧ (∀ (s : State) (req : Request) (pid nid : String),
        (listV1 s req pid nid).1.body ≠ (listV2 s req pid nid).1.body) := by
  constructor
  · intro s req pid nid hk hv
    constructor <;> simp [authenticate, validateProduct, hk, hv]
  · intro s req pid nid
    simp [listV1, listV2]

/-- C5 witness: the amended equivalence applied at a concrete authenticated
valid request. -/
theorem C5_dedup_witness :
    authenticate (validateProduct createH) products postKeyValidReq "" "n1"
      = createH products postKeyValidReq "" "n1" :=
  (C5_dedup_changes_behavior.1 products postKeyValidReq "" "n1" rfl rfl).1

/-- C6 counterexample. The claim that no update can make two products share
an id is false at a concrete input: `PUT /api/products/1` with body
`id: "2"` succeeds (the reachable PUT registration has no guard on `id`)
and leaves two products with id `"2"` in the collection. -/
theorem C6_update_body_id_breaks_uniqueness :
    uniqueIds products
    ∧ (dispatch products putIdOverwriteReq "n0").1.status = 200
    ∧ ¬ uniqueIds (dispatch products putIdOverwriteReq "n0").2 :=
  ⟨by decide, rfl, by decide⟩

/-- C6 amended. Id uniqueness holds of the seeded collection and is
preserved by create (with a fresh generated id), by delete, and by any
update whose body does not supply an `id` field; an update whose body does
supply an `id` can overwrite the stored id with a colliding value. -/
theorem C6_uniqueness_preserved_without_body_id :
    uniqueIds products
    ∧ (∀ (s : State) (req : Request) (nid : String),
        req.method = .POST → req.path = ["api", "products"] →
        (∀ p ∈ s, p.id ≠ .str nid) → uniqueIds s → uniqueIds (dispatch s req nid).2)
    ∧ (∀ (s : State) (req : Request) (pid nid : String),
        req.method = .DELETE → req.path = ["api", "products", pid] →
        uniqueIds s → uniqueIds (dispatch s req nid).2)
    ∧ (∀ (s : State) (req : Request) (pid nid : String),
        req.method = .PUT → req.path = ["api", "products", pid] →
        req.body.id = none → uniqueIds s → uniqueIds (dispatch s req nid).2) := by
  refine ⟨by decide, ?_, ?_, ?_⟩
  · intro s req nid hm hp hfresh hu
    rw [dispatch_post s req nid hm hp]
    simp only [createH]
    unfold uniqueIds at hu ⊢
    rw [List.map_append, List.nodup_append]
    refine ⟨hu, by simp, ?_⟩
    intro a ha hb
    simp only [List.map_cons, List.map_nil, List.mem_singleton] at hb
    obtain ⟨p, hps, hpid⟩ := List.mem_map.mp ha
    exact hfresh p hps (by rw [hpid, hb]; rfl)
  · intro s req pid nid hm hp hu
    rw [dispatch_delete s req nid pid hm hp]
    cases h : findIndexJs (fun p => p.id == JsVal.str pid) s with
    | none => rw [deleteH_none s req pid nid h]; exact hu
    | some i =>
      rw [deleteH_some s req pid nid i h]
      unfold uniqueIds at hu ⊢
      exact hu.sublist ((List.eraseIdx_sublist s i).map _)
  · intro s req pid nid hm hp hbid hu
    rw [dispatch_put s req nid pid hm hp]
    cases hf : findIndexJs (fun p => p.id == JsVal.str pid) s with
    | none => rw [updateH_none s req pid nid hf]; exact hu
    | some i =>
      cases hg : s.get? i with
      | none => rw [updateH_oob s req pid nid i hf hg]; exact hu
      | some old =>
        rw [updateH_some s req pid nid i old hf hg]
        unfold uniqueIds at hu ⊢
        have hid : (mergeProd old req.body).id = old.id := by
          simp [mergeProd, hbid]
        rw [List.map_set, hid, set_map_self _ s i old hg]
        exact hu

/-- C6 witness: the amended preservation applied to concrete create, delete
and update requests on the seeded collection. -/
theorem C6_uniqueness_witness :
    uniqueIds (dispatch products postNoKeyReq "fresh-9").2
    ∧ uniqueIds (dispatch products (deleteReq "2") "x").2
    ∧ uniqueIds (dispatch products (putPriceReq "1") "x").2 :=
  ⟨C6_uniqueness_preserved_without_body_id.2.1 products postNoKeyReq "fresh-9"
      rfl rfl (by decide) (by decide),
   C6_uniqueness_preserved_without_body_id.2.2.1 products (deleteReq "2") "2" "x"
      rfl rfl (by decide),
   C6_uniqueness_preserved_without_body_id.2.2.2 products (putPriceReq "1") "1" "x"
      rfl rfl rfl (by decide)⟩

/-- C7. `PUT /api/products/:id` on an existing id (the first match, here
pinned by requiring no earlier product to carry the id) answers 200 with
the shallow merge of the body onto the stored record, replaces exactly
that record in place, every field present in the body overwrites, every
absent field keeps its prior value; in particular a body carrying only
`price` leaves the other fields unchanged. -/
theorem C7_update_shallow_merge
    (pre post : List Product) (old : Product) (req : Request) (pid nid : String)
    (hm : req.method = .PUT) (hp : req.path = ["api", "products", pid])
    (hold : old.id = .str pid) (hpre : ∀ q ∈ pre, q.id ≠ .str pid) :
    dispatch (pre ++ old :: post) req nid
        = (⟨200, .productJson (mergeProd old req.body)⟩,
           pre ++ mergeProd old req.body :: post)
    ∧ (mergeProd old req.body).id = req.body.id.getD old.id
    ∧ (mergeProd old req.body).name = req.body.name.getD old.name
    ∧ (mergeProd old req.body).description = req.body.description.getD old.description
    ∧ (mergeProd old req.body).price = req.body.price.getD old.price
    ∧ (mergeProd old req.body).category = req.body.category.getD old.category
    ∧ (mergeProd old req.body).inStock = req.body.inStock.getD old.inStock
    ∧ (req.body.id = none ∧ req.body.name = none ∧ req.body.description = none
        ∧ req.body.category = none ∧ req.body.inStock = none →
        (mergeProd old req.body).id = old.id
        ∧ (mergeProd old req.body).name = old.name
        ∧ (mergeProd old req.body).description = old.description
        ∧ (mergeProd old req.body).category = old.category
        ∧ (mergeProd old req.body).inStock = old.inStock) := by
  have hfpre : ∀ q ∈ pre, (fun p => p.id == JsVal.str pid) q = false := by
    intro q hq
    simpa [beq_eq_false_iff_ne] using hpre q hq
  have hf := findIndexJs_append_cons _ pre old post hfpre (by simp [hold])
  have hg := get?_append_cons pre old post
  rw [dispatch_put _ _ _ _ hm hp, updateH_some _ _ _ _ _ _ hf hg, set_append_cons]
  refine ⟨rfl, rfl, rfl, rfl, rfl, rfl, rfl, ?_⟩
  rintro ⟨h1, h2, h3, h4, h5⟩
  simp [mergeProd, h1, h2, h3, h4, h5]

/-- C7 witness: updating only the price of the first seeded product. -/
theorem C7_update_witness :
    dispatch products (putPriceReq "1") "x"
      = (⟨200, .productJson (mergeProd prod1 priceOnlyBody)⟩,
         [mergeProd prod1 priceOnlyBody, prod2, prod3]) := by
  have h := C7_update_shallow_merge [] [prod2, prod3] prod1 (putPriceReq "1") "1" "x"
    rfl rfl rfl (by simp)
  exact h.1

/-- C8. `DELETE /api/products/:id` answers 404 and leaves the collection
unchanged when no product carries the id; when a product does (under the
uniqueness invariant), it removes exactly that record, keeps every other
record in its original relative order, answers 204 with an empty body, and
a subsequent `GET /api/products/:id` for that id answers 404. -/
theorem C8_delete_semantics :
    (∀ (s : State) (req : Request) (pid nid : String),
        req.method = .DELETE → req.path = ["api", "products", pid] →
        (∀ q ∈ s, q.id ≠ .str pid) →
        dispatch s req nid = (⟨404, .errObj "Product not found"⟩, s))
    ∧ (∀ (pre post : List Product) (old : Product) (req : Request) (pid nid : String),
        req.method = .DELETE → req.path = ["api", "products", pid] →
        old.id = .str pid → uniqueIds (pre ++ old :: post) →
        dispatch (pre ++ old :: post) req nid = (⟨204, .empty⟩, pre ++ post)
        ∧ ∀ (req₂ : Request) (nid₂ : String),
            req₂.method = .GET → req₂.path = ["api", "products", pid] →
            dispatch (pre ++ post) req₂ nid₂
              = (⟨404, .errObj "Product not found"⟩, pre ++ post)) := by
  constructor
  · intro s req pid nid hm hp habs
    have hf : findIndexJs (fun p => p.id == JsVal.str pid) s = none :=
      findIndexJs_eq_none _ s fun q hq => by
        simpa [beq_eq_false_iff_ne] using habs q hq
    rw [dispatch_delete s req nid pid hm hp, deleteH_none s req pid nid hf]
  · intro pre post old req pid nid hm hp hold hu
    obtain ⟨hpre, hpost⟩ := uniqueIds_split pre old post hu
    have hfpre : ∀ q ∈ pre, (fun p => p.id == JsVal.str pid) q = false := by
      intro q hq
      simpa [beq_eq_false_iff_ne] using hold ▸ hpre q hq
    have hf := findIndexJs_append_cons _ pre old post hfpre (by simp [hold])
    constructor
    · rw [dispatch_delete _ _ _ _ hm hp, deleteH_some _ _ _ _ _ hf, eraseIdx_append_cons]
    · intro req₂ nid₂ hm₂ hp₂
      have hnone : (pre ++ post).find? (fun p => p.id == JsVal.str pid) = none := by
        apply find?_eq_none_of_all
        intro q hq
        rcases List.mem_append.mp hq with h | h
        · simpa [beq_eq_false_iff_ne] using hold ▸ hpre q h
        · simpa [beq_eq_false_iff_ne] using hold ▸ hpost q h
      rw [dispatch_get_item _ _ _ _ hm₂ hp₂, getByIdH_none _ _ _ _ hnone]

/-- C8 witness: deleting an absent id, then deleting the third seeded
product and fetching it again. -/
theorem C8_delete_witness :
    dispatch products (deleteReq "404") "x" = (⟨404, .errObj "Product not found"⟩, products)
    ∧ dispatch products (deleteReq "3") "x" = (⟨204, .empty⟩, [prod1, prod2])
    ∧ dispatch [prod1, prod2] (getByIdReq "3") "y"
        = (⟨404, .errObj "Product not found"⟩, [prod1, prod2]) := by
  have h1 := C8_delete_semantics.1 products (deleteReq "404") "404" "x" rfl rfl (by decide)
  have h2 := C8_delete_semantics.2 [prod1, prod2] [] prod3 (deleteReq "3") "3" "x"
    rfl rfl rfl (by decide)
  exact ⟨h1, h2.1, h2.2 (getByIdReq "3") "y" rfl rfl⟩

/-- C9. A create request (which always succeeds with 201) appends the new
record, built from the body fields and the fresh id, at the end of the
collection, and an immediately following `GET /api/products/:id` with the
returned id answers 200 with exactly that record. -/
theorem C9_create_roundtrip (s : State) (req : Request) (nid : String)
    (hm : req.method = .POST) (hp : req.path = ["api", "products"])
    (hfresh : ∀ p ∈ s, p.id ≠ .str nid) :
    dispatch s req nid
        = (⟨201, .productJson (createdProd req.body nid)⟩, s ++ [createdProd req.body nid])
    ∧ ∀ (req₂ : Request) (nid₂ : String),
        req₂.method = .GET → req₂.path = ["api", "products", nid] →
        dispatch (s ++ [createdProd req.body nid]) req₂ nid₂
          = (⟨200, .productJson (createdProd req.body nid)⟩,
             s ++ [createdProd req.body nid]) := by
  constructor
  · rw [dispatch_post s req nid hm hp]
    rfl
  · intro req₂ nid₂ hm₂ hp₂
    have hfind : (s ++ createdProd req.body nid :: []).find?
        (fun p => p.id == JsVal.str nid) = some (createdProd req.body nid) :=
      find?_append_cons _ s _ []
        (fun q hq => by simpa [beq_eq_false_iff_ne] using hfresh q hq)
        (by simp [createdProd])
    rw [dispatch_get_item _ _ _ _ hm₂ hp₂, getByIdH_some _ _ _ _ _ hfind]

/-- C9 witness: creating a desk with a fresh id on the seeded collection
and fetching it back. -/
theorem C9_create_witness :
    dispatch products postNoKeyReq "new-9"
        = (⟨201, .productJson (createdProd validBodyEx "new-9")⟩,
           products ++ [createdProd validBodyEx "new-9"])
    ∧ dispatch (products ++ [createdProd validBodyEx "new-9"]) (getByIdReq "new-9") "z"
        = (⟨200, .productJson (createdProd validBodyEx "new-9")⟩,
           products ++ [createdProd validBodyEx "new-9"]) := by
  have h := C9_create_roundtrip products postNoKeyReq "new-9" rfl rfl (by decide)
  exact ⟨h.1, h.2 (getByIdReq "new-9") "z" rfl rfl⟩

/-- C10. Every GET request, whatever its path and query, leaves the
collection unchanged: all read handlers (including the two shadowed ones)
return the state they were given. -/
theorem C10_get_requests_preserve_state (s : State) (req : Request) (nid : String)
    (hm : req.method = .GET) : (dispatch s req nid).2 = s := by
  apply runRoutes_state
  intro e he hme pid
  simp only [routes, List.mem_cons, List.not_mem_nil, or_false] at he
  rcases he with rfl | rfl | rfl | rfl | rfl | rfl | rfl | rfl | rfl | rfl
  · rfl
  · rfl
  · exact getByIdH_state s req pid nid
  · rw [hm] at hme
    exact absurd hme (by decide)
  · rw [hm] at hme
    exact absurd hme (by decide)
  · rw [hm] at hme
    exact absurd hme (by decide)
  · rfl
  · rfl
  · rw [hm] at hme
    exact absurd hme (by decide)
  · rw [hm] at hme
    exact absurd hme (by decide)

/-- C10 witness: a concrete GET by id leaves the seeded collection as it
was. -/
theorem C10_get_witness : (dispatch products (getByIdReq "1") "w").2 = products :=
  C10_get_requests_preserve_state products (getByIdReq "1") "w" rfl

end ProductApi
